import Mathlib

/-!
Shallow embedding of `chat.py` / `config.py` (a CLI chat client persisting
conversation transcripts to local files), together with proofs of the spec's
claims about it.

Modelling conventions:
* The file system visible to the program (the history directory, the
  active-pointer file `active_chat.json`, `input.txt`, `output.md`) is a
  record `FSState`.  The history directory is an association list
  filename → transcript, where writing a file conses (shadowing = overwrite,
  lookup takes the first hit).
* Python exceptions become `Except`; `Chat.chat` returns
  `Except (ChatError × FSState) FSState` so that the state at the moment an
  exception escapes is observable (a raised exception does not undo earlier
  file writes, so "no persistence on failure" must be proved, not assumed).
* The HTTP transport is external: its behaviour is a `TransportOutcome`
  parameter (request exception, batched JSON body, or stream of lines).
  Stream lines are modelled after the fields `_handle_stream` reads: a line is
  empty, a non-`data:` line, the `[DONE]` sentinel, an invalid-JSON payload,
  or a parsed chunk carrying per-choice `delta.content` and optional `usage`.
* `datetime.now().isoformat()` draws are the parameters `tCreate`
  (inside `create_chat_history`) and `tUpdate` (the per-turn refresh).
* Console `print`s are ignored; they touch no persistent state.
-/

/-- Token accounting, cumulative across turns (`chat_data["usage"]`). -/
structure Usage where
  prompt_tokens : Nat
  completion_tokens : Nat
  total_tokens : Nat
  deriving DecidableEq, Repr

/-- One transcript message (`{"role": ..., "content": ...}`). -/
structure Message where
  role : String
  content : String
  deriving DecidableEq, Repr

/-- The transcript structure built by `create_chat_history` and persisted as JSON. -/
structure ChatData where
  model : String
  messages : List Message
  usage : Usage
  created_at : String
  last_updated_at : String
  deriving DecidableEq, Repr

/-- The file-system state the program reads and writes.
`activeFile = none` means `active_chat.json` is absent; `some a` means the file
exists and `a` is `data.get("active_chat")` (absent key ⇒ `some none`).
`inputFile`/`outputFile` are the contents of `input.txt` / `output.md` when
those files exist. -/
structure FSState where
  history : List (String × ChatData)
  activeFile : Option (Option String)
  inputFile : Option String
  outputFile : Option String
  deriving DecidableEq, Repr

/-- `config.MODEL`. -/
def MODEL : String := "codestral-latest"

/-- `config.MAX_TOKENS` (sent in the payload; not otherwise used). -/
def MAX_TOKENS : Nat := 8192

/-- Lookup in the history directory: first (most recent) write wins. -/
def lookupHistory (h : List (String × ChatData)) (name : String) : Option ChatData :=
  (h.find? (fun p => p.1 = name)).map (·.2)

/-- Writing a file into the history directory (whole-file overwrite). -/
def insertHistory (h : List (String × ChatData)) (name : String) (cd : ChatData) :
    List (String × ChatData) :=
  (name, cd) :: h

/-- Field-by-field accumulation, as done by the three `+=` lines of `Chat.chat`. -/
def addUsage (a b : Usage) : Usage :=
  { prompt_tokens := a.prompt_tokens + b.prompt_tokens
    completion_tokens := a.completion_tokens + b.completion_tokens
    total_tokens := a.total_tokens + b.total_tokens }

/-- Python's `str.capitalize()`: first character uppercased, the rest lowercased. -/
def pyCapitalize (s : String) : String :=
  match s.data with
  | [] => ""
  | c :: cs => ⟨c.toUpper :: cs.map Char.toLower⟩

/-- Python's `str.strip()`: drop leading and trailing whitespace characters
(modelled over the common ASCII whitespace set of `Char.isWhitespace`). -/
def pyStrip (s : String) : String :=
  ⟨((s.data.dropWhile Char.isWhitespace).reverse.dropWhile Char.isWhitespace).reverse⟩

/-- `s.replace(str(c), "")` for a single character: drop every occurrence. -/
def removeAll (c : Char) (s : String) : String :=
  ⟨s.data.filter (fun d => d ≠ c)⟩

/-- `s.replace(str(c), str(r))` for single characters: map every occurrence. -/
def replaceAll (c r : Char) (s : String) : String :=
  ⟨s.data.map (fun d => if d = c then r else d)⟩

/-- Errors `chat.py` can raise (all caught in `main` and reported with exit 1). -/
inductive ChatError where
  /-- `FileNotFoundError(f"Chat history file not found: {filename}")`. -/
  | fileNotFound (filename : String)
  /-- `RuntimeError(f"API request failed: {e}")` from `send_message`. -/
  | apiRequestFailed
  /-- `ValueError("No prompt provided. ...")`. -/
  | noPromptProvided
  /-- `KeyError`/`IndexError` while extracting `response["choices"][0]`. -/
  | malformedResponse
  deriving DecidableEq, Repr

/-- A parsed streaming chunk, reduced to the fields `_handle_stream` reads:
for each entry of `chunk["choices"]` its `delta.get("content")` (`none` when
the delta or content key is absent), and `chunk["usage"]` when present and
truthy. -/
structure Chunk where
  choices : List (Option String)
  usage : Option Usage
  deriving DecidableEq, Repr

/-- One line of the response's event stream, as classified by `_handle_stream`:
empty (falsy) line; a line not starting with `"data: "`; the `[DONE]`
sentinel; a `data:` payload that is not valid JSON; or a parsed chunk. -/
inductive StreamLine where
  | empty
  | noData (s : String)
  | done
  | malformed
  | chunk (c : Chunk)
  deriving DecidableEq, Repr

/-- The normalized response shape both modes produce:
`{"choices": [... message content ...], "usage": ...}` with each element of
`choices` standing for its `message.content`. -/
structure ApiResult where
  choices : List String
  usage : Usage
  deriving DecidableEq, Repr

/-- What the external transport does for one request: raise a
`RequestException` (connection error or non-2xx status), or deliver a batched
JSON body, or deliver a stream of lines. -/
inductive TransportOutcome where
  | requestError
  | okJson (r : ApiResult)
  | okStream (lines : List StreamLine)
  deriving Repr

/-- The loop body of `_handle_stream`, with the `full_content` and `usage`
accumulator variables explicit. -/
def handle_stream_go : List StreamLine → String → Usage → ApiResult
  | [], full_content, usage => { choices := [full_content], usage := usage }
  | line :: rest, full_content, usage =>
    match line with
    | .empty => handle_stream_go rest full_content usage
    | .noData _ => handle_stream_go rest full_content usage
    | .done => { choices := [full_content], usage := usage }
    | .malformed => handle_stream_go rest full_content usage
    | .chunk c =>
      let full_content' :=
        match c.choices.head? with
        | some (some content) =>
          if content = "" then full_content else full_content ++ content
        | _ => full_content
      let usage' :=
        match c.usage with
        | some u => u
        | none => usage
      handle_stream_go rest full_content' usage'

namespace Chat

/-- `Chat.create_chat_history`: fresh empty transcript; `now` is the single
`datetime.now()` draw used for both timestamps. -/
def create_chat_history (now : String) : ChatData :=
  { model := MODEL
    messages := []
    usage := { prompt_tokens := 0, total_tokens := 0, completion_tokens := 0 }
    created_at := now
    last_updated_at := now }

/-- `Chat.get_chat_filename`: `created_at.replace(":", "").replace(".", "-")`
with `.json` appended. -/
def get_chat_filename (created_at : String) : String :=
  replaceAll '.' '-' (removeAll ':' created_at) ++ ".json"

/-- `Chat.save_chat_history`: write the transcript (deriving the filename from
`created_at` when none is given) and return the filename used. -/
def save_chat_history (st : FSState) (chat_data : ChatData) (filename : Option String) :
    FSState × String :=
  let fn :=
    match filename with
    | none => get_chat_filename chat_data.created_at
    | some f => f
  ({ st with history := insertHistory st.history fn chat_data }, fn)

/-- `Chat.load_chat_history`: read a transcript, `FileNotFoundError` if absent. -/
def load_chat_history (st : FSState) (filename : String) : Except ChatError ChatData :=
  match lookupHistory st.history filename with
  | none => .error (.fileNotFound filename)
  | some cd => .ok cd

/-- `Chat.get_active_chat`: `None` when the pointer file is absent, else
`data.get("active_chat")`. -/
def get_active_chat (st : FSState) : Option String :=
  match st.activeFile with
  | none => none
  | some a => a

/-- `Chat.set_active_chat`: overwrite the pointer file. -/
def set_active_chat (st : FSState) (filename : String) : FSState :=
  { st with activeFile := some (some filename) }

/-- `Chat._handle_stream`: consume the line stream starting from empty content
and zero usage. -/
def handle_stream (lines : List StreamLine) : ApiResult :=
  handle_stream_go lines "" { prompt_tokens := 0, completion_tokens := 0, total_tokens := 0 }

/-- `Chat.send_message`: a `RequestException` becomes the single
"API request failed" error; a batched body is returned as parsed; a streamed
body goes through `_handle_stream`. -/
def send_message (outcome : TransportOutcome) : Except ChatError ApiResult :=
  match outcome with
  | .requestError => .error .apiRequestFailed
  | .okJson r => .ok r
  | .okStream lines => .ok (handle_stream lines)

/-- The markdown text `Chat.update_output_md` writes (concatenation of its
`f.write` calls). -/
def output_md_content (chat_data : ChatData) : String :=
  "# Chat History\n\n" ++
  "**Created:** " ++ chat_data.created_at ++ "\n\n" ++
  "**Last Updated:** " ++ chat_data.last_updated_at ++ "\n\n" ++
  "**Model:** " ++ chat_data.model ++ "\n\n" ++
  "---\n\n" ++
  String.join (chat_data.messages.map
    (fun msg => "## " ++ pyCapitalize msg.role ++ "\n\n" ++ msg.content ++ "\n\n")) ++
  "---\n\n" ++
  "**Usage Statistics:**\n\n" ++
  "- Prompt Tokens: " ++ toString chat_data.usage.prompt_tokens ++ "\n" ++
  "- Completion Tokens: " ++ toString chat_data.usage.completion_tokens ++ "\n" ++
  "- Total Tokens: " ++ toString chat_data.usage.total_tokens ++ "\n"

/-- `Chat.update_output_md`: regenerate `output.md` in full. -/
def update_output_md (st : FSState) (chat_data : ChatData) : FSState :=
  { st with outputFile := some (output_md_content chat_data) }

/-- The prompt after the `input.txt` fallback of `Chat.chat`: when the caller
supplied none (falsy) and `input.txt` exists, its content stripped of
surrounding whitespace. -/
def resolvePrompt (st : FSState) (promptArg : String) : String :=
  if promptArg = "" then
    match st.inputFile with
    | some s => pyStrip s
    | none => promptArg
  else promptArg

/-- `Chat.chat`, the main flow: resolve the session (`load` / `new` /
continue-active), acquire the prompt, exchange, mutate the transcript,
persist, update the pointer and the rendered view.  An escaping exception is
returned together with the file-system state at that moment. -/
def chat (st : FSState) (promptArg : String) (new_chat : Bool) (load_file0 : Option String)
    (outcome : TransportOutcome) (tCreate tUpdate : String) :
    Except (ChatError × FSState) FSState :=
  -- `if load_file:` — an empty-string filename is falsy in Python
  let load_file : Option String :=
    match load_file0 with
    | some lf => if lf = "" then none else some lf
    | none => none
  match load_file with
  | some lf =>
    match load_chat_history st lf with
    | .error e => .error (e, st)
    | .ok chat_data =>
      let st1 := set_active_chat st lf
      let st2 := update_output_md st1 chat_data
      .ok st2
  | none =>
    -- session resolution (`if new_chat: ... else: ...`)
    let resolved : ChatData × Option String :=
      if new_chat then (create_chat_history tCreate, none)
      else
        match get_active_chat st with
        | some active =>
          -- `if active_filename:` — empty string is falsy
          if active = "" then (create_chat_history tCreate, none)
          else
            match lookupHistory st.history active with
            | some cd => (cd, some active)
            | none => (create_chat_history tCreate, none)
        | none => (create_chat_history tCreate, none)
    let chat_data := resolved.1
    let filename := resolved.2
    let prompt := resolvePrompt st promptArg
    if prompt = "" then .error (.noPromptProvided, st)
    else
      let chat_data1 :=
        { chat_data with messages := chat_data.messages ++ [Message.mk "user" prompt] }
      match send_message outcome with
      | .error e => .error (e, st)
      | .ok response =>
        match response.choices.head? with
        | none => .error (.malformedResponse, st)
        | some assistant_message =>
          let chat_data2 : ChatData :=
            { chat_data1 with
              messages := chat_data1.messages ++ [Message.mk "assistant" assistant_message]
              usage := addUsage chat_data1.usage response.usage
              last_updated_at := tUpdate }
          let saved := save_chat_history st chat_data2 filename
          let st1 := set_active_chat saved.1 saved.2
          let st2 := update_output_md st1 chat_data2
          .ok st2

end Chat

/-! ### Derived notions used to state the claims -/

/-- `true` exactly on the `[DONE]` sentinel line. -/
def isDone : StreamLine → Bool
  | .done => true
  | _ => false

/-- The content fragments a single stream line contributes: the first choice's
non-empty `delta.content` of a well-formed chunk, nothing otherwise. -/
def fragmentsOf : StreamLine → List String
  | .chunk c =>
    match c.choices.head? with
    | some (some content) => if content = "" then [] else [content]
    | _ => []
  | _ => []

/-- The usage object a single stream line carries, if any. -/
def usageOf : StreamLine → Option Usage
  | .chunk c => c.usage
  | _ => none

/-- A well-formed stream delivering the content fragments `frags` one chunk at
a time, then a usage-only chunk carrying `u`, then the `[DONE]` sentinel. -/
def fragmentLines (frags : List String) (u : Usage) : List StreamLine :=
  frags.map (fun s => StreamLine.chunk { choices := [some s], usage := none }) ++
    [StreamLine.chunk { choices := [], usage := some u }, StreamLine.done]

/-- The inputs of one successful exchange, as seen from the transcript. -/
structure Exchange where
  prompt : String
  assistant : String
  usage : Usage
  tUpdate : String
  deriving DecidableEq, Repr

/-- The transcript mutation one successful exchange performs (append user
message, append assistant message, accumulate usage, refresh timestamp). -/
def exchangeTranscript (cd : ChatData) (e : Exchange) : ChatData :=
  { cd with
    messages := cd.messages ++ [Message.mk "user" e.prompt] ++ [Message.mk "assistant" e.assistant]
    usage := addUsage cd.usage e.usage
    last_updated_at := e.tUpdate }

/-- The file-system state after a successful non-load `Chat.chat` run that
persisted transcript `cd` under filename `fn`. -/
def successState (st : FSState) (fn : String) (cd : ChatData) : FSState :=
  { history := insertHistory st.history fn cd
    activeFile := some (some fn)
    inputFile := st.inputFile
    outputFile := some (Chat.output_md_content cd) }

/-- The arguments of one `Chat.chat` invocation. -/
structure ChatInput where
  prompt : String
  new_chat : Bool
  load_file : Option String
  outcome : TransportOutcome
  tCreate : String
  tUpdate : String

/-- A sequence of `Chat.chat` invocations, stopping at the first escaping
exception. -/
def runChats (st : FSState) : List ChatInput → Except (ChatError × FSState) FSState
  | [] => .ok st
  | i :: is =>
    match Chat.chat st i.prompt i.new_chat i.load_file i.outcome i.tCreate i.tUpdate with
    | .error e => .error e
    | .ok st' => runChats st' is

/-- A bare continue invocation performing exchange `e` (batched response with
one choice). -/
def continueInput (tCreate : String) (e : Exchange) : ChatInput :=
  { prompt := e.prompt
    new_chat := false
    load_file := none
    outcome := .okJson { choices := [e.assistant], usage := e.usage }
    tCreate := tCreate
    tUpdate := e.tUpdate }

/-- N exchanges starting from a fresh empty transcript: the first invocation
passes `--new`, the rest continue the now-active session. -/
def exchangeInputs (tCreate : String) : List Exchange → List ChatInput
  | [] => []
  | e :: es => { continueInput tCreate e with new_chat := true } :: es.map (continueInput tCreate)

/-- The spec's worked example: one exchange, prompt "hello", reply "hi there",
usage {5, 3, 8}. -/
def exampleChat : ChatData :=
  { model := MODEL
    messages := [Message.mk "user" "hello", Message.mk "assistant" "hi there"]
    usage := { prompt_tokens := 5, completion_tokens := 3, total_tokens := 8 }
    created_at := "2026-01-22T01:07:57"
    last_updated_at := "2026-01-22T01:08:00" }

/-! ### Helper lemmas -/

theorem resolvePrompt_of_ne (st : FSState) (p : String) (hp : p ≠ "") :
    Chat.resolvePrompt st p = p := by
  simp [Chat.resolvePrompt, hp]

theorem lookupHistory_insert (h : List (String × ChatData)) (fn : String) (cd : ChatData) :
    lookupHistory (insertHistory h fn cd) fn = some cd := by
  simp [lookupHistory, insertHistory, List.find?]

theorem get_chat_filename_ne_empty (c : String) : Chat.get_chat_filename c ≠ "" := by
  intro h
  have := congrArg String.data h
  simp [Chat.get_chat_filename, String.data_append] at this

/-- The success path of `Chat.chat` on a new transcript (`--new`): the state
becomes `successState` for the filename derived from `tCreate` and the
transcript holding exactly the one exchange. -/
theorem chat_new_eq (st : FSState) (promptArg tCreate tUpdate a : String) (u : Usage)
    (rest : List String) (hp : Chat.resolvePrompt st promptArg ≠ "") :
    Chat.chat st promptArg true none (.okJson { choices := a :: rest, usage := u })
        tCreate tUpdate =
      .ok (successState st (Chat.get_chat_filename tCreate)
        (exchangeTranscript (Chat.create_chat_history tCreate)
          { prompt := Chat.resolvePrompt st promptArg, assistant := a, usage := u
            tUpdate := tUpdate })) := by
  simp [Chat.chat, hp, Chat.create_chat_history, Chat.send_message, Chat.save_chat_history, Chat.set_active_chat,
    Chat.update_output_md, successState, exchangeTranscript, insertHistory]

/-- The success path of `Chat.chat` continuing an existing session: the stored
transcript is extended by the exchange and saved under its existing filename. -/
theorem chat_continue_eq (st : FSState) (promptArg tCreate tUpdate a fn : String)
    (cd : ChatData) (u : Usage) (rest : List String)
    (ha : st.activeFile = some (some fn)) (hfn : fn ≠ "")
    (hl : lookupHistory st.history fn = some cd)
    (hp : Chat.resolvePrompt st promptArg ≠ "") :
    Chat.chat st promptArg false none (.okJson { choices := a :: rest, usage := u })
        tCreate tUpdate =
      .ok (successState st fn
        (exchangeTranscript cd
          { prompt := Chat.resolvePrompt st promptArg, assistant := a, usage := u
            tUpdate := tUpdate })) := by
  simp [Chat.chat, Chat.get_active_chat, ha, hfn, hl, hp, Chat.send_message,
    Chat.save_chat_history, Chat.set_active_chat, Chat.update_output_md,
    successState, exchangeTranscript, insertHistory]

/-- The success path of `Chat.chat` when invoked without `--new` but the
active pointer is dead (file absent, key absent, empty name, or target
missing): behaves exactly like the new-transcript path. -/
theorem chat_fallback_eq (st : FSState) (promptArg tCreate tUpdate a : String) (u : Usage)
    (rest : List String)
    (hdead : st.activeFile = none ∨ st.activeFile = some none ∨
      ∃ fn, st.activeFile = some (some fn) ∧
        (fn = "" ∨ lookupHistory st.history fn = none))
    (hp : Chat.resolvePrompt st promptArg ≠ "") :
    Chat.chat st promptArg false none (.okJson { choices := a :: rest, usage := u })
        tCreate tUpdate =
      .ok (successState st (Chat.get_chat_filename tCreate)
        (exchangeTranscript (Chat.create_chat_history tCreate)
          { prompt := Chat.resolvePrompt st promptArg, assistant := a, usage := u
            tUpdate := tUpdate })) := by
  rcases hdead with h | h | ⟨fn, h, hfn⟩
  · simp [Chat.chat, Chat.get_active_chat, h, hp, Chat.create_chat_history, Chat.send_message, Chat.save_chat_history,
      Chat.set_active_chat, Chat.update_output_md, successState, exchangeTranscript,
      insertHistory]
  · simp [Chat.chat, Chat.get_active_chat, h, hp, Chat.create_chat_history, Chat.send_message, Chat.save_chat_history,
      Chat.set_active_chat, Chat.update_output_md, successState, exchangeTranscript,
      insertHistory]
  · rcases hfn with hfn | hfn
    · subst hfn
      simp [Chat.chat, Chat.get_active_chat, h, hp, Chat.create_chat_history, Chat.send_message, Chat.save_chat_history,
        Chat.set_active_chat, Chat.update_output_md, successState, exchangeTranscript,
        insertHistory]
    · by_cases hz : fn = ""
      · subst hz
        simp [Chat.chat, Chat.get_active_chat, h, hp, Chat.create_chat_history, Chat.send_message,
          Chat.save_chat_history, Chat.set_active_chat, Chat.update_output_md, successState,
          exchangeTranscript, insertHistory]
      · simp [Chat.chat, Chat.get_active_chat, h, hz, hfn, hp, Chat.create_chat_history, Chat.send_message,
          Chat.save_chat_history, Chat.set_active_chat, Chat.update_output_md, successState,
          exchangeTranscript, insertHistory]

/-! ### Claims -/

/-- C1: a transport-level failure surfaces as the single "API request failed"
error and the file-system state at the moment the error escapes is exactly the
prior state: transcript files, active pointer and rendered output untouched,
for every prior state, prompt, mode and pair of timestamps. -/
theorem C1_transport_failure_no_persistence (st : FSState) (promptArg : String)
    (new_chat : Bool) (tCreate tUpdate : String)
    (hp : Chat.resolvePrompt st promptArg ≠ "") :
    Chat.chat st promptArg new_chat none .requestError tCreate tUpdate =
      .error (.apiRequestFailed, st) := by
  simp [Chat.chat, hp, Chat.send_message]

theorem C1_witness :
    Chat.resolvePrompt ⟨[], none, none, none⟩ "hi" ≠ "" ∧
      Chat.chat ⟨[], none, none, none⟩ "hi" false none .requestError "T1" "T2" =
        .error (.apiRequestFailed, ⟨[], none, none, none⟩) :=
  ⟨by decide, C1_transport_failure_no_persistence _ _ _ _ _ (by decide)⟩

/-- C3: `--load` with a stored filename reads that transcript, sets the
active pointer to it, regenerates the rendered view from it, and terminates:
the history directory (hence the loaded transcript's messages, usage and
content on disk) and the input file are untouched and no request is sent (the
result is the same for every transport outcome, which never gets consulted);
with an absent filename it fails with the NotFound error, changing nothing. -/
theorem C3_load_switches_without_mutation (st : FSState) (promptArg : String)
    (new_chat : Bool) (lf : String) (outcome : TransportOutcome) (tCreate tUpdate : String)
    (hlf : lf ≠ "") :
    (∀ cd, lookupHistory st.history lf = some cd →
      Chat.chat st promptArg new_chat (some lf) outcome tCreate tUpdate =
        .ok { st with activeFile := some (some lf)
                      outputFile := some (Chat.output_md_content cd) }) ∧
    (lookupHistory st.history lf = none →
      Chat.chat st promptArg new_chat (some lf) outcome tCreate tUpdate =
        .error (.fileNotFound lf, st)) := by
  constructor
  · intro cd hcd
    simp [Chat.chat, hlf, Chat.load_chat_history, hcd, Chat.set_active_chat,
      Chat.update_output_md]
  · intro hcd
    simp [Chat.chat, hlf, Chat.load_chat_history, hcd]

theorem C3_witness :
    Chat.chat ⟨[("f.json", exampleChat)], none, none, none⟩ "" false (some "f.json")
        .requestError "T1" "T2" =
      .ok { history := [("f.json", exampleChat)], activeFile := some (some "f.json")
            inputFile := none, outputFile := some (Chat.output_md_content exampleChat) } ∧
    Chat.chat ⟨[], none, none, none⟩ "" false (some "f.json") .requestError "T1" "T2" =
      .error (.fileNotFound "f.json", ⟨[], none, none, none⟩) := by
  constructor
  · exact (C3_load_switches_without_mutation ⟨[("f.json", exampleChat)], none, none, none⟩
      "" false "f.json" .requestError "T1" "T2" (by decide)).1 exampleChat (by decide)
  · exact (C3_load_switches_without_mutation ⟨[], none, none, none⟩
      "" false "f.json" .requestError "T1" "T2" (by decide)).2 (by decide)

/-- C8: on the non-load paths, an unsupplied prompt falls back to the input
file's content stripped of surrounding whitespace; when the resolved prompt
is still empty (input file absent, or only whitespace), the run fails with
the "no prompt provided" error while the file-system state is still exactly
the initial one — nothing appended, sent or persisted (the conclusion holds
for every transport outcome, so no request was needed). -/
theorem C8_empty_prompt_fails_before_send (st : FSState) (promptArg : String)
    (new_chat : Bool) (outcome : TransportOutcome) (tCreate tUpdate : String) :
    (∀ s, promptArg = "" → st.inputFile = some s →
      Chat.resolvePrompt st promptArg = pyStrip s) ∧
    (promptArg = "" → st.inputFile = none → Chat.resolvePrompt st promptArg = "") ∧
    (Chat.resolvePrompt st promptArg = "" →
      Chat.chat st promptArg new_chat none outcome tCreate tUpdate =
        .error (.noPromptProvided, st)) := by
  refine ⟨?_, ?_, ?_⟩
  · intro s hp hs
    simp [Chat.resolvePrompt, hp, hs]
  · intro hp hs
    simp [Chat.resolvePrompt, hp, hs]
  · intro hres
    simp [Chat.chat, hres]

theorem C8_witness :
    Chat.resolvePrompt ⟨[], none, some "  \n ", none⟩ "" = "" ∧
    Chat.chat ⟨[], none, some "  \n ", none⟩ "" false none .requestError "T1" "T2" =
      .error (.noPromptProvided, ⟨[], none, some "  \n ", none⟩) := by
  constructor
  · exact of_decide_eq_true rfl
  · exact (C8_empty_prompt_fails_before_send ⟨[], none, some "  \n ", none⟩ "" false
      .requestError "T1" "T2").2.2 (of_decide_eq_true rfl)

/-- C4: invoked without `--new` and without `--load`, a missing pointer file,
a pointer record without an active name, or a pointer whose target transcript
is absent does not fail: the run creates a fresh empty transcript and performs
the exchange on it; when the pointer's target exists (under a non-empty name),
that transcript is continued. -/
theorem C4_dead_pointer_falls_back_to_new (st : FSState) (promptArg : String)
    (tCreate tUpdate a : String) (u : Usage) (rest : List String)
    (hp : Chat.resolvePrompt st promptArg ≠ "") :
    ((st.activeFile = none ∨ st.activeFile = some none ∨
        ∃ fn, st.activeFile = some (some fn) ∧
          (fn = "" ∨ lookupHistory st.history fn = none)) →
      Chat.chat st promptArg false none (.okJson { choices := a :: rest, usage := u })
          tCreate tUpdate =
        .ok (successState st (Chat.get_chat_filename tCreate)
          (exchangeTranscript (Chat.create_chat_history tCreate)
            { prompt := Chat.resolvePrompt st promptArg, assistant := a, usage := u
              tUpdate := tUpdate }))) ∧
    (∀ fn cd, st.activeFile = some (some fn) → fn ≠ "" →
      lookupHistory st.history fn = some cd →
      Chat.chat st promptArg false none (.okJson { choices := a :: rest, usage := u })
          tCreate tUpdate =
        .ok (successState st fn
          (exchangeTranscript cd
            { prompt := Chat.resolvePrompt st promptArg, assistant := a, usage := u
              tUpdate := tUpdate }))) := by
  constructor
  · intro hdead
    exact chat_fallback_eq st promptArg tCreate tUpdate a u rest hdead hp
  · intro fn cd ha hfn hl
    exact chat_continue_eq st promptArg tCreate tUpdate a fn cd u rest ha hfn hl hp

theorem C4_witness :
    Chat.resolvePrompt ⟨[], some (some "gone.json"), none, none⟩ "q" ≠ "" ∧
    Chat.chat ⟨[], some (some "gone.json"), none, none⟩ "q" false none
        (.okJson { choices := ["r"], usage := ⟨1, 2, 3⟩ }) "T1" "T2" =
      .ok (successState ⟨[], some (some "gone.json"), none, none⟩
        (Chat.get_chat_filename "T1")
        (exchangeTranscript (Chat.create_chat_history "T1")
          { prompt := Chat.resolvePrompt ⟨[], some (some "gone.json"), none, none⟩ "q"
            assistant := "r", usage := ⟨1, 2, 3⟩, tUpdate := "T2" })) :=
  ⟨by decide,
    (C4_dead_pointer_falls_back_to_new ⟨[], some (some "gone.json"), none, none⟩ "q"
      "T1" "T2" "r" ⟨1, 2, 3⟩ [] (by decide)).1
      (Or.inr (Or.inr ⟨"gone.json", rfl, Or.inr rfl⟩))⟩

theorem get_chat_filename_no_colon (c : String) :
    ':' ∉ (Chat.get_chat_filename c).data := by
  intro hmem
  rw [Chat.get_chat_filename, String.data_append] at hmem
  rcases List.mem_append.1 hmem with h | h
  · simp only [replaceAll, removeAll, List.mem_map, List.mem_filter] at h
    obtain ⟨d, ⟨_, hd⟩, he⟩ := h
    by_cases hdp : d = '.'
    · simp [hdp] at he
    · simp [hdp] at he
      simp [he] at hd
  · simp at h

theorem get_chat_filename_one_period (c : String) :
    (Chat.get_chat_filename c).data.count '.' = 1 := by
  rw [Chat.get_chat_filename, String.data_append, List.count_append]
  have hz : (replaceAll '.' '-' (removeAll ':' c)).data.count '.' = 0 := by
    rw [List.count_eq_zero]
    intro hmem
    simp only [replaceAll, removeAll, List.mem_map, List.mem_filter] at hmem
    obtain ⟨d, ⟨_, _⟩, he⟩ := hmem
    by_cases hdp : d = '.'
    · simp [hdp] at he
    · simp [hdp] at he
  rw [hz]
  decide

/-- C7: on a successful exchange a brand-new transcript is saved under the
filename derived from its `created_at` timestamp by `get_chat_filename`
(deterministic: colons removed and periods dashed in the timestamp, so the
name carries no colon and its only period is the `.json` extension), an
existing transcript is re-saved under its existing filename, and in both
cases the active-pointer file is overwritten to reference that filename. -/
theorem C7_filename_derivation_and_pointer (st : FSState) (promptArg : String)
    (tCreate tUpdate a : String) (u : Usage) (rest : List String)
    (hp : Chat.resolvePrompt st promptArg ≠ "") :
    (Chat.chat st promptArg true none (.okJson { choices := a :: rest, usage := u })
        tCreate tUpdate =
      .ok (successState st
        (Chat.get_chat_filename (Chat.create_chat_history tCreate).created_at)
        (exchangeTranscript (Chat.create_chat_history tCreate)
          { prompt := Chat.resolvePrompt st promptArg, assistant := a, usage := u
            tUpdate := tUpdate })) ∧
      (successState st (Chat.get_chat_filename (Chat.create_chat_history tCreate).created_at)
        (exchangeTranscript (Chat.create_chat_history tCreate)
          { prompt := Chat.resolvePrompt st promptArg, assistant := a, usage := u
            tUpdate := tUpdate })).activeFile =
        some (some (Chat.get_chat_filename (Chat.create_chat_history tCreate).created_at))) ∧
    (∀ fn cd, st.activeFile = some (some fn) → fn ≠ "" →
      lookupHistory st.history fn = some cd →
      Chat.chat st promptArg false none (.okJson { choices := a :: rest, usage := u })
          tCreate tUpdate =
        .ok (successState st fn
          (exchangeTranscript cd
            { prompt := Chat.resolvePrompt st promptArg, assistant := a, usage := u
              tUpdate := tUpdate })) ∧
      (successState st fn
        (exchangeTranscript cd
          { prompt := Chat.resolvePrompt st promptArg, assistant := a, usage := u
            tUpdate := tUpdate })).activeFile = some (some fn)) ∧
    (∀ c, ':' ∉ (Chat.get_chat_filename c).data ∧
      (Chat.get_chat_filename c).data.count '.' = 1) := by
  refine ⟨⟨?_, rfl⟩, fun fn cd ha hfn hl => ⟨?_, rfl⟩, fun c =>
    ⟨get_chat_filename_no_colon c, get_chat_filename_one_period c⟩⟩
  · exact chat_new_eq st promptArg tCreate tUpdate a u rest hp
  · exact chat_continue_eq st promptArg tCreate tUpdate a fn cd u rest ha hfn hl hp

theorem C7_witness :
    Chat.chat ⟨[], none, none, none⟩ "q" true none
        (.okJson { choices := ["r"], usage := ⟨1, 2, 3⟩ }) "2026-01-22T01:07:57.5" "T2" =
      .ok (successState ⟨[], none, none, none⟩
        (Chat.get_chat_filename (Chat.create_chat_history "2026-01-22T01:07:57.5").created_at)
        (exchangeTranscript (Chat.create_chat_history "2026-01-22T01:07:57.5")
          { prompt := Chat.resolvePrompt ⟨[], none, none, none⟩ "q"
            assistant := "r", usage := ⟨1, 2, 3⟩, tUpdate := "T2" })) ∧
    Chat.get_chat_filename "2026-01-22T01:07:57.5" = "2026-01-22T010757-5.json" :=
  ⟨((C7_filename_derivation_and_pointer ⟨[], none, none, none⟩ "q"
      "2026-01-22T01:07:57.5" "T2" "r" ⟨1, 2, 3⟩ [] (by decide)).1).1,
    by decide⟩

theorem string_foldl_append (s : List String) :
    ∀ x : String, s.foldl (· ++ ·) x = x ++ String.join s := by
  induction s with
  | nil => intro x; simp [String.join, String.append_empty]
  | cons a s ih =>
    intro x
    have hj : String.join (a :: s) = a ++ String.join s := by
      show (a :: s).foldl (· ++ ·) "" = a ++ String.join s
      rw [List.foldl_cons, ih ("" ++ a), String.empty_append]
    rw [List.foldl_cons, ih (x ++ a), hj, String.append_assoc]

theorem join_cons (a : String) (s : List String) :
    String.join (a :: s) = a ++ String.join s := by
  show (a :: s).foldl (· ++ ·) "" = a ++ String.join s
  rw [List.foldl_cons, string_foldl_append s ("" ++ a), String.empty_append]

theorem handle_stream_go_malformed (ls₁ : List StreamLine) :
    ∀ (ls₂ : List StreamLine) (acc : String) (u : Usage),
      handle_stream_go (ls₁ ++ StreamLine.malformed :: ls₂) acc u =
        handle_stream_go (ls₁ ++ ls₂) acc u := by
  induction ls₁ with
  | nil => intro ls₂ acc u; rfl
  | cons l ls ih =>
    intro ls₂ acc u
    cases l <;> simp [handle_stream_go, ih]

theorem handle_stream_go_done (ls : List StreamLine) (h : StreamLine.done ∉ ls) :
    ∀ (rest : List StreamLine) (acc : String) (u : Usage),
      handle_stream_go (ls ++ StreamLine.done :: rest) acc u = handle_stream_go ls acc u := by
  induction ls with
  | nil => intro rest acc u; rfl
  | cons l ls ih =>
    intro rest acc u
    have hl : l ≠ StreamLine.done := fun he => h (he ▸ List.mem_cons_self l ls)
    have hls : StreamLine.done ∉ ls := fun hm => h (List.mem_cons_of_mem l hm)
    cases l with
    | done => exact absurd rfl hl
    | empty => simp [handle_stream_go, ih hls]
    | noData s => simp [handle_stream_go, ih hls]
    | malformed => simp [handle_stream_go, ih hls]
    | chunk c => simp [handle_stream_go, ih hls]

theorem isDone_done : isDone .done = true := rfl

theorem isDone_empty : isDone .empty = false := rfl

theorem isDone_noData (s : String) : isDone (.noData s) = false := rfl

theorem isDone_malformed : isDone .malformed = false := rfl

theorem isDone_chunk (c : Chunk) : isDone (.chunk c) = false := rfl

theorem handle_stream_go_content (ls : List StreamLine) :
    ∀ (acc : String) (u : Usage),
      (handle_stream_go ls acc u).choices =
        [acc ++ String.join ((ls.takeWhile (fun l => !isDone l)).flatMap fragmentsOf)] := by
  induction ls with
  | nil => intro acc u; simp [handle_stream_go, String.join, String.append_empty]
  | cons l ls ih =>
    intro acc u
    cases l with
    | done => simp [handle_stream_go, isDone_done, String.join, String.append_empty]
    | empty => simp [handle_stream_go, isDone_empty, fragmentsOf, ih]
    | noData s => simp [handle_stream_go, isDone_noData, fragmentsOf, ih]
    | malformed => simp [handle_stream_go, isDone_malformed, fragmentsOf, ih]
    | chunk c =>
      simp only [handle_stream_go, List.takeWhile_cons, isDone_chunk, Bool.not_false, if_true]
      match hc : c.choices.head? with
      | some (some content) =>
        by_cases hz : content = ""
        · simp [hc, hz, fragmentsOf, ih]
        · simp [hc, hz, fragmentsOf, ih, join_cons, String.append_assoc]
      | some none => simp [hc, fragmentsOf, ih]
      | none => simp [hc, fragmentsOf, ih]

theorem getLast?_getD_cons (l : List α) :
    ∀ a d : α, ((a :: l).getLast?).getD d = (l.getLast?).getD a := by
  induction l with
  | nil => intro a d; rfl
  | cons b l ih =>
    intro a d
    rw [List.getLast?_cons_cons, ih b d, ih b a]

theorem handle_stream_go_usage (ls : List StreamLine) :
    ∀ (acc : String) (u : Usage),
      (handle_stream_go ls acc u).usage =
        ((((ls.takeWhile (fun l => !isDone l)).filterMap usageOf).getLast?).getD u) := by
  induction ls with
  | nil => intro acc u; simp [handle_stream_go]
  | cons l ls ih =>
    intro acc u
    cases l with
    | done => simp [handle_stream_go, isDone_done]
    | empty => simp [handle_stream_go, isDone_empty, usageOf, ih]
    | noData s => simp [handle_stream_go, isDone_noData, usageOf, ih]
    | malformed => simp [handle_stream_go, isDone_malformed, usageOf, ih]
    | chunk c =>
      match hu : c.usage with
      | some u' =>
        simp [handle_stream_go, isDone_chunk, usageOf, hu, ih, List.filterMap_cons,
          getLast?_getD_cons]
      | none => simp [handle_stream_go, isDone_chunk, usageOf, hu, ih, List.filterMap_cons]

theorem fragmentLines_cons (f : String) (fs : List String) (u : Usage) :
    fragmentLines (f :: fs) u =
      StreamLine.chunk { choices := [some f], usage := none } :: fragmentLines fs u := by
  simp [fragmentLines]

theorem handle_stream_go_fragmentLines (u : Usage) (fs : List String) :
    ∀ (acc : String) (u0 : Usage),
      handle_stream_go (fragmentLines fs u) acc u0 =
        { choices := [acc ++ String.join fs], usage := u } := by
  induction fs with
  | nil =>
    intro acc u0
    simp [fragmentLines, handle_stream_go, String.join, String.append_empty]
  | cons f fs ih =>
    intro acc u0
    rw [fragmentLines_cons]
    by_cases hz : f = ""
    · have h1 : handle_stream_go
          (StreamLine.chunk { choices := [some f], usage := none } :: fragmentLines fs u)
          acc u0 = handle_stream_go (fragmentLines fs u) acc u0 := by
        simp [handle_stream_go, hz]
      rw [h1, ih acc u0, join_cons, hz, String.empty_append]
    · have h1 : handle_stream_go
          (StreamLine.chunk { choices := [some f], usage := none } :: fragmentLines fs u)
          acc u0 = handle_stream_go (fragmentLines fs u) (acc ++ f) u0 := by
        simp [handle_stream_go, hz]
      rw [h1, ih (acc ++ f) u0, join_cons, String.append_assoc]

theorem handle_stream_fragmentLines (frags : List String) (u : Usage) :
    Chat.handle_stream (fragmentLines frags u) =
      { choices := [String.join frags], usage := u } := by
  rw [Chat.handle_stream,
    handle_stream_go_fragmentLines u frags ""
      { prompt_tokens := 0, completion_tokens := 0, total_tokens := 0 },
    String.empty_append]

theorem chat_resp_congr (st : FSState) (p : String) (nc : Bool) (lf : Option String)
    (o₁ o₂ : TransportOutcome) (tC tU : String) (r₁ r₂ : ApiResult)
    (h₁ : Chat.send_message o₁ = .ok r₁) (h₂ : Chat.send_message o₂ = .ok r₂)
    (hh : r₁.choices.head? = r₂.choices.head?) (hu : r₁.usage = r₂.usage) :
    Chat.chat st p nc lf o₁ tC tU = Chat.chat st p nc lf o₂ tC tU := by
  simp only [Chat.chat, h₁, h₂, hh, hu]

/-- C5: a streamed response whose chunks carry content fragments concatenating
to S with usage object U normalizes to the same `{content, usage}` result
shape as a batched response whose first choice is S with usage U, and the
whole `Chat.chat` run (hence the persisted transcript, pointer and rendered
view) is identical between the two modes, for every prior state, prompt, mode
and timestamps. -/
theorem C5_streaming_equals_batched (frags rest : List String) (u : Usage) (st : FSState)
    (p : String) (nc : Bool) (lf : Option String) (tCreate tUpdate : String) :
    Chat.handle_stream (fragmentLines frags u) =
      { choices := [String.join frags], usage := u } ∧
    Chat.chat st p nc lf (.okStream (fragmentLines frags u)) tCreate tUpdate =
      Chat.chat st p nc lf (.okJson { choices := String.join frags :: rest, usage := u })
        tCreate tUpdate := by
  refine ⟨handle_stream_fragmentLines frags u, ?_⟩
  apply chat_resp_congr st p nc lf _ _ tCreate tUpdate
    { choices := [String.join frags], usage := u }
    { choices := String.join frags :: rest, usage := u }
  · simp [Chat.send_message, handle_stream_fragmentLines]
  · rfl
  · rfl
  · rfl

/-- C6: the streaming handler concatenates the content fragments of
well-formed chunks in arrival order (the result content is the join, in
order, of the fragments of the lines before the first `[DONE]`), consuming
stops at the `[DONE]` sentinel (everything after it is ignored), and a chunk
whose payload is not valid JSON is skipped without affecting the result. -/
theorem C6_stream_concat_done_malformed (ls ms₁ ms₂ ds rest : List StreamLine)
    (hnd : StreamLine.done ∉ ds) :
    (Chat.handle_stream ls).choices =
      [String.join ((ls.takeWhile (fun l => !isDone l)).flatMap fragmentsOf)] ∧
    Chat.handle_stream (ms₁ ++ StreamLine.malformed :: ms₂) =
      Chat.handle_stream (ms₁ ++ ms₂) ∧
    Chat.handle_stream (ds ++ StreamLine.done :: rest) = Chat.handle_stream ds := by
  refine ⟨?_, ?_, ?_⟩
  · rw [Chat.handle_stream, handle_stream_go_content, String.empty_append]
  · rw [Chat.handle_stream, Chat.handle_stream, handle_stream_go_malformed]
  · rw [Chat.handle_stream, Chat.handle_stream, handle_stream_go_done ds hnd]

theorem C6_witness :
    StreamLine.done ∉
        ([StreamLine.chunk { choices := [some "ab"], usage := none }] : List StreamLine) ∧
      (Chat.handle_stream [StreamLine.chunk { choices := [some "ab"], usage := none },
          StreamLine.malformed, StreamLine.chunk { choices := [some " cd"], usage := none }]).choices =
        [String.join (([StreamLine.chunk { choices := [some "ab"], usage := none },
            StreamLine.malformed, StreamLine.chunk { choices := [some " cd"], usage := none }].takeWhile
              (fun l => !isDone l)).flatMap fragmentsOf)] ∧
      Chat.handle_stream ([StreamLine.chunk { choices := [some "ab"], usage := none }] ++
          StreamLine.malformed :: [StreamLine.chunk { choices := [some " cd"], usage := none }]) =
        Chat.handle_stream ([StreamLine.chunk { choices := [some "ab"], usage := none }] ++
          [StreamLine.chunk { choices := [some " cd"], usage := none }]) ∧
      Chat.handle_stream ([StreamLine.chunk { choices := [some "ab"], usage := none }] ++
          StreamLine.done :: [StreamLine.malformed]) =
        Chat.handle_stream [StreamLine.chunk { choices := [some "ab"], usage := none }] :=
  ⟨by decide,
    C6_stream_concat_done_malformed
      [StreamLine.chunk { choices := [some "ab"], usage := none },
        StreamLine.malformed, StreamLine.chunk { choices := [some " cd"], usage := none }]
      [StreamLine.chunk { choices := [some "ab"], usage := none }]
      [StreamLine.chunk { choices := [some " cd"], usage := none }]
      [StreamLine.chunk { choices := [some "ab"], usage := none }]
      [StreamLine.malformed] (by decide)⟩

/-- C10: the usage record a streamed exchange reports is the usage object of
the last pre-`[DONE]` chunk carrying one (later usage objects overwrite
earlier ones), and defaults to all-zero when no consumed chunk carries usage,
so such a stream contributes zero to the cumulative totals. -/
theorem C10_stream_usage_last_wins (ls : List StreamLine) :
    (Chat.handle_stream ls).usage =
      ((((ls.takeWhile (fun l => !isDone l)).filterMap usageOf).getLast?).getD
        { prompt_tokens := 0, completion_tokens := 0, total_tokens := 0 }) := by
  rw [Chat.handle_stream, handle_stream_go_usage]

theorem join_mem_split (f : Message → String) (l : List Message) (m : Message) (hm : m ∈ l) :
    ∃ a b : String, String.join (l.map f) = a ++ f m ++ b := by
  induction l with
  | nil => cases hm
  | cons x xs ih =>
    rcases List.mem_cons.1 hm with h | h
    · subst h
      exact ⟨"", String.join (xs.map f), by
        rw [List.map_cons, join_cons, String.empty_append]⟩
    · obtain ⟨a, b, hab⟩ := ih h
      exact ⟨f x ++ a, b, by
        rw [List.map_cons, join_cons, hab]
        simp [String.append_assoc]⟩

theorem output_md_section (cd : ChatData) (m : Message) (hm : m ∈ cd.messages) :
    ∃ a b : String, Chat.output_md_content cd =
      a ++ ("## " ++ pyCapitalize m.role ++ "\n\n" ++ m.content ++ "\n\n") ++ b := by
  obtain ⟨a, b, hab⟩ := join_mem_split
    (fun msg => "## " ++ pyCapitalize msg.role ++ "\n\n" ++ msg.content ++ "\n\n")
    cd.messages m hm
  refine ⟨"# Chat History\n\n" ++ "**Created:** " ++ cd.created_at ++ "\n\n" ++
    "**Last Updated:** " ++ cd.last_updated_at ++ "\n\n" ++ "**Model:** " ++ cd.model ++
    "\n\n" ++ "---\n\n" ++ a,
    b ++ ("---\n\n" ++ "**Usage Statistics:**\n\n" ++
      "- Prompt Tokens: " ++ toString cd.usage.prompt_tokens ++ "\n" ++
      "- Completion Tokens: " ++ toString cd.usage.completion_tokens ++ "\n" ++
      "- Total Tokens: " ++ toString cd.usage.total_tokens ++ "\n"), ?_⟩
  rw [Chat.output_md_content, hab]
  simp [String.append_assoc]

set_option maxRecDepth 100000 in
/-- C9: the rendered view is a function of the transcript alone (two runs over
different prior states produce the same output file); it carries one section
per message, labelled by the capitalized role with the content verbatim; and
on the spec's example (user "hello", assistant "hi there", usage {5, 3, 8})
it is exactly the full markdown document with the "## User"/"## Assistant"
sections and the 5/3/8 usage block. -/
theorem C9_render_function_of_transcript (st st' : FSState) (cd : ChatData) :
    (Chat.update_output_md st cd).outputFile = (Chat.update_output_md st' cd).outputFile ∧
    (∀ m ∈ cd.messages, ∃ a b : String, Chat.output_md_content cd =
      a ++ ("## " ++ pyCapitalize m.role ++ "\n\n" ++ m.content ++ "\n\n") ++ b) ∧
    Chat.output_md_content exampleChat =
      "# Chat History\n\n**Created:** 2026-01-22T01:07:57\n\n**Last Updated:** " ++
      "2026-01-22T01:08:00\n\n**Model:** codestral-latest\n\n---\n\n## User\n\nhello\n\n" ++
      "## Assistant\n\nhi there\n\n---\n\n**Usage Statistics:**\n\n- Prompt Tokens: 5\n" ++
      "- Completion Tokens: 3\n- Total Tokens: 8\n" := by
  refine ⟨rfl, fun m hm => output_md_section cd m hm, by decide⟩

theorem C9_witness :
    ∃ a b : String, Chat.output_md_content exampleChat =
      a ++ ("## " ++ pyCapitalize (Message.mk "user" "hello").role ++ "\n\n" ++
        (Message.mk "user" "hello").content ++ "\n\n") ++ b :=
  (C9_render_function_of_transcript ⟨[], none, none, none⟩ ⟨[], none, none, none⟩
    exampleChat).2.1 (Message.mk "user" "hello") (by decide)

theorem foldl_exchange_messages (es : List Exchange) :
    ∀ cd : ChatData, (es.foldl exchangeTranscript cd).messages =
      cd.messages ++ es.flatMap
        (fun e => [Message.mk "user" e.prompt, Message.mk "assistant" e.assistant]) := by
  induction es with
  | nil => intro cd; simp
  | cons e es ih =>
    intro cd
    rw [List.foldl_cons, ih, List.flatMap_cons]
    simp [exchangeTranscript, List.append_assoc]

theorem foldl_exchange_usage (es : List Exchange) :
    ∀ cd : ChatData,
      (es.foldl exchangeTranscript cd).usage.prompt_tokens =
        cd.usage.prompt_tokens + (es.map (fun e => e.usage.prompt_tokens)).sum ∧
      (es.foldl exchangeTranscript cd).usage.completion_tokens =
        cd.usage.completion_tokens + (es.map (fun e => e.usage.completion_tokens)).sum ∧
      (es.foldl exchangeTranscript cd).usage.total_tokens =
        cd.usage.total_tokens + (es.map (fun e => e.usage.total_tokens)).sum := by
  induction es with
  | nil => intro cd; simp
  | cons e es ih =>
    intro cd
    obtain ⟨h1, h2, h3⟩ := ih (exchangeTranscript cd e)
    refine ⟨?_, ?_, ?_⟩
    · rw [List.foldl_cons, h1]; simp [exchangeTranscript, addUsage, Nat.add_assoc]
    · rw [List.foldl_cons, h2]; simp [exchangeTranscript, addUsage, Nat.add_assoc]
    · rw [List.foldl_cons, h3]; simp [exchangeTranscript, addUsage, Nat.add_assoc]

theorem foldl_exchange_last (es : List Exchange) :
    ∀ (hne : es ≠ []) (cd : ChatData),
      (es.foldl exchangeTranscript cd).last_updated_at = (es.getLast hne).tUpdate := by
  induction es with
  | nil => intro hne; exact absurd rfl hne
  | cons e es ih =>
    intro hne cd
    cases es with
    | nil => simp [exchangeTranscript]
    | cons e' es' =>
      rw [List.foldl_cons, ih (List.cons_ne_nil e' es') (exchangeTranscript cd e),
        List.getLast_cons (List.cons_ne_nil e' es')]

theorem runChats_continue (tCreate : String) (es : List Exchange) :
    ∀ (st : FSState) (fn : String) (cd : ChatData),
      st.activeFile = some (some fn) → fn ≠ "" →
      lookupHistory st.history fn = some cd →
      (∀ e ∈ es, e.prompt ≠ "") →
      ∃ stf, runChats st (es.map (continueInput tCreate)) = .ok stf ∧
        stf.activeFile = some (some fn) ∧
        lookupHistory stf.history fn = some (es.foldl exchangeTranscript cd) := by
  induction es with
  | nil =>
    intro st fn cd ha hfn hl _
    exact ⟨st, rfl, ha, by simpa using hl⟩
  | cons e es ih =>
    intro st fn cd ha hfn hl hp
    have hpe : e.prompt ≠ "" := hp e (List.mem_cons_self e es)
    have hrp : Chat.resolvePrompt st e.prompt ≠ "" := by
      rw [resolvePrompt_of_ne st e.prompt hpe]; exact hpe
    have hstep := chat_continue_eq st e.prompt tCreate e.tUpdate e.assistant fn cd e.usage []
      ha hfn hl hrp
    rw [resolvePrompt_of_ne st e.prompt hpe] at hstep
    obtain ⟨stf, hrun, hact, hlook⟩ :=
      ih (successState st fn (exchangeTranscript cd e)) fn (exchangeTranscript cd e) rfl hfn
        (lookupHistory_insert st.history fn (exchangeTranscript cd e))
        (fun e' he' => hp e' (List.mem_cons_of_mem e he'))
    refine ⟨stf, ?_, hact, by rw [List.foldl_cons]; exact hlook⟩
    rw [List.map_cons]
    show (match Chat.chat st e.prompt false none
        (.okJson { choices := [e.assistant], usage := e.usage }) tCreate e.tUpdate with
      | .error err => Except.error err
      | .ok st' => runChats st' (es.map (continueInput tCreate))) = .ok stf
    rw [hstep]
    exact hrun

theorem flatMap_pair_length (es : List Exchange) :
    (es.flatMap (fun e =>
      [Message.mk "user" e.prompt, Message.mk "assistant" e.assistant])).length =
      2 * es.length := by
  induction es with
  | nil => rfl
  | cons e es ih =>
    simp [List.flatMap_cons, ih]
    omega

/-- C2: starting from a fresh empty transcript (`--new` on the first turn,
continue-active afterwards), N ≥ 1 successful exchanges produce a stored
transcript whose message list is exactly user/assistant per exchange in
order (so 2N messages alternating user, assistant, ...), whose cumulative
usage is the field-by-field sum of the N exchanges' usage records, and whose
`last_updated_at` is the final turn's timestamp. -/
theorem C2_n_exchanges_accumulate (st : FSState) (tCreate : String) (es : List Exchange)
    (hne : es ≠ []) (hp : ∀ e ∈ es, e.prompt ≠ "") :
    ∃ stf cd, runChats st (exchangeInputs tCreate es) = .ok stf ∧
      stf.activeFile = some (some (Chat.get_chat_filename tCreate)) ∧
      lookupHistory stf.history (Chat.get_chat_filename tCreate) = some cd ∧
      cd.messages = es.flatMap
        (fun e => [Message.mk "user" e.prompt, Message.mk "assistant" e.assistant]) ∧
      cd.messages.length = 2 * es.length ∧
      cd.usage.prompt_tokens = (es.map (fun e => e.usage.prompt_tokens)).sum ∧
      cd.usage.completion_tokens = (es.map (fun e => e.usage.completion_tokens)).sum ∧
      cd.usage.total_tokens = (es.map (fun e => e.usage.total_tokens)).sum ∧
      cd.last_updated_at = (es.getLast hne).tUpdate := by
  cases es with
  | nil => exact absurd rfl hne
  | cons e es' =>
    have hpe : e.prompt ≠ "" := hp e (List.mem_cons_self e es')
    have hrp : Chat.resolvePrompt st e.prompt ≠ "" := by
      rw [resolvePrompt_of_ne st e.prompt hpe]; exact hpe
    have hstep := chat_new_eq st e.prompt tCreate e.tUpdate e.assistant e.usage [] hrp
    rw [resolvePrompt_of_ne st e.prompt hpe] at hstep
    obtain ⟨stf, hrun, hact, hlook⟩ := runChats_continue tCreate es'
      (successState st (Chat.get_chat_filename tCreate)
        (exchangeTranscript (Chat.create_chat_history tCreate) e))
      (Chat.get_chat_filename tCreate)
      (exchangeTranscript (Chat.create_chat_history tCreate) e) rfl
      (get_chat_filename_ne_empty tCreate)
      (lookupHistory_insert st.history (Chat.get_chat_filename tCreate)
        (exchangeTranscript (Chat.create_chat_history tCreate) e))
      (fun e' he' => hp e' (List.mem_cons_of_mem e he'))
    refine ⟨stf,
      es'.foldl exchangeTranscript (exchangeTranscript (Chat.create_chat_history tCreate) e),
      ?_, hact, hlook, ?_, ?_, ?_, ?_, ?_, ?_⟩
    · show (match Chat.chat st e.prompt true none
          (.okJson { choices := [e.assistant], usage := e.usage }) tCreate e.tUpdate with
        | .error err => Except.error err
        | .ok st' => runChats st' (es'.map (continueInput tCreate))) = .ok stf
      rw [hstep]
      exact hrun
    · rw [foldl_exchange_messages es' (exchangeTranscript (Chat.create_chat_history tCreate) e),
        List.flatMap_cons]
      simp [exchangeTranscript, Chat.create_chat_history]
    · rw [foldl_exchange_messages es' (exchangeTranscript (Chat.create_chat_history tCreate) e)]
      have h2 := flatMap_pair_length es'
      simp [exchangeTranscript, Chat.create_chat_history, h2]
      omega
    · rw [(foldl_exchange_usage es'
        (exchangeTranscript (Chat.create_chat_history tCreate) e)).1]
      simp [exchangeTranscript, addUsage, Chat.create_chat_history]
    · rw [(foldl_exchange_usage es'
        (exchangeTranscript (Chat.create_chat_history tCreate) e)).2.1]
      simp [exchangeTranscript, addUsage, Chat.create_chat_history]
    · rw [(foldl_exchange_usage es'
        (exchangeTranscript (Chat.create_chat_history tCreate) e)).2.2]
      simp [exchangeTranscript, addUsage, Chat.create_chat_history]
    · cases es' with
      | nil => simp [exchangeTranscript]
      | cons e2 es2 =>
        rw [foldl_exchange_last (e2 :: es2) (List.cons_ne_nil e2 es2)
          (exchangeTranscript (Chat.create_chat_history tCreate) e),
          List.getLast_cons (List.cons_ne_nil e2 es2)]

theorem C2_witness :
    ∃ stf cd,
      runChats ⟨[], none, none, none⟩ (exchangeInputs "T1"
        [Exchange.mk "p1" "a1" (Usage.mk 1 2 3) "U1",
         Exchange.mk "p2" "a2" (Usage.mk 10 20 30) "U2"]) = .ok stf ∧
      stf.activeFile = some (some (Chat.get_chat_filename "T1")) ∧
      lookupHistory stf.history (Chat.get_chat_filename "T1") = some cd ∧
      cd.messages = ([Exchange.mk "p1" "a1" (Usage.mk 1 2 3) "U1",
          Exchange.mk "p2" "a2" (Usage.mk 10 20 30) "U2"] : List Exchange).flatMap
        (fun e => [Message.mk "user" e.prompt, Message.mk "assistant" e.assistant]) ∧
      cd.messages.length = 2 * ([Exchange.mk "p1" "a1" (Usage.mk 1 2 3) "U1",
          Exchange.mk "p2" "a2" (Usage.mk 10 20 30) "U2"] : List Exchange).length ∧
      cd.usage.prompt_tokens = (([Exchange.mk "p1" "a1" (Usage.mk 1 2 3) "U1",
          Exchange.mk "p2" "a2" (Usage.mk 10 20 30) "U2"] : List Exchange).map
        (fun e => e.usage.prompt_tokens)).sum ∧
      cd.usage.completion_tokens = (([Exchange.mk "p1" "a1" (Usage.mk 1 2 3) "U1",
          Exchange.mk "p2" "a2" (Usage.mk 10 20 30) "U2"] : List Exchange).map
        (fun e => e.usage.completion_tokens)).sum ∧
      cd.usage.total_tokens = (([Exchange.mk "p1" "a1" (Usage.mk 1 2 3) "U1",
          Exchange.mk "p2" "a2" (Usage.mk 10 20 30) "U2"] : List Exchange).map
        (fun e => e.usage.total_tokens)).sum ∧
      cd.last_updated_at = (([Exchange.mk "p1" "a1" (Usage.mk 1 2 3) "U1",
          Exchange.mk "p2" "a2" (Usage.mk 10 20 30) "U2"] : List Exchange).getLast
        (List.cons_ne_nil _ _)).tUpdate :=
  C2_n_exchanges_accumulate ⟨[], none, none, none⟩ "T1"
    [Exchange.mk "p1" "a1" (Usage.mk 1 2 3) "U1",
     Exchange.mk "p2" "a2" (Usage.mk 10 20 30) "U2"]
    (List.cons_ne_nil _ _) (by decide)
